import Mathlib

/-!
Shallow embedding of the conversable-agent core of the jsautogen repository
(src/jsautogen/agentchat/conversable_agent.js), together with theorems settling
the frozen claims about its specification.

Modelling conventions for the JavaScript source:
* machine values appearing in the relevant code paths are modelled explicitly:
  `undefined` becomes `Option.none`, JavaScript `NaN` propagation in numeric
  state becomes `JsNum.nan`, and thrown exceptions become `Except.error`;
* per-peer `Map` objects become functions `AgentId → Option _` (a `Map.get`
  miss is `none`, exactly the `undefined` of the source);
* agent identity (JavaScript object reference) is modelled by an opaque
  numeric identifier `AgentId`;
* external collaborators imported from outside this repository
  (`extractCode`, `inferLang`, the code runner, the completion client, the
  human-input channel) are passed as explicit function parameters;
* console logging and message printing have no bearing on any claim and are
  omitted.
-/

/-- Peer identity: the source keys its per-peer maps by the Agent object
reference; reference identity is modelled by a numeric identifier. -/
def AgentId : Type := Nat

instance : DecidableEq AgentId := instDecidableEqNat

instance : OfNat AgentId n := ⟨(n : Nat)⟩

instance : ToString AgentId := instToStringNat

/-- JavaScript numeric values as they occur in the consecutive-auto-reply
counter: an integer, or `NaN` (which arises from `undefined + 1`). -/
inductive JsNum where
  | num (n : Int)
  | nan
deriving DecidableEq, Repr

/-- Errors thrown by the modelled JavaScript code: `typeError` stands for a
`TypeError` raised by the runtime (calling `undefined`, etc.); `jsError` is an
explicitly constructed `new Error(msg)` (message text abridged where the
source text contains characters this development avoids). -/
inductive JsError where
  | typeError
  | jsError (msg : String)
deriving DecidableEq, Repr

/-- JavaScript `a >= b` where `a` is the per-peer counter entry (possibly
`undefined` or `NaN`) and `b` is the per-peer ceiling entry (possibly
`undefined`). Any comparison involving `undefined` or `NaN` is `false`. -/
def jsGE : Option JsNum → Option Int → Bool
  | some (JsNum.num a), some b => a ≥ b
  | _, _ => false

/-- JavaScript `x + 1` on a counter entry: `undefined + 1` and `NaN + 1` are
both `NaN` (conversable_agent.js line 433). -/
def jsAddOne : Option JsNum → JsNum
  | some (JsNum.num n) => JsNum.num (n + 1)
  | some JsNum.nan => JsNum.nan
  | none => JsNum.nan

/-- Structured function call payload carried by a message
(`{ name, args }`, both optional in JavaScript). -/
structure FunctionCall where
  name : Option String := none
  args : Option String := none
deriving DecidableEq, Repr

/-- Normalized message record. All fields are optional at the JavaScript
level; `context` carries template-substitution data, modelled as a string. -/
structure Message where
  content : Option String := none
  function_call : Option FunctionCall := none
  name : Option String := none
  context : Option String := none
  role : Option String := none
deriving DecidableEq, Repr

/-- Truthiness of an optional string field: `undefined` and the empty string
are falsy, every other string is truthy. -/
def truthyStr : Option String → Bool
  | none => false
  | some s => s ≠ ""

/-- Value classes reachable by property lookup on a stored message object. -/
inductive JsProp where
  | strVal (s : String)
  | fcVal (f : FunctionCall)
deriving DecidableEq, Repr

/-- Property lookup on a stored message: stored messages are plain object
literals built in `_appendOaiMessage`, so their own properties are exactly
`content`, `function_call`, `name`, `context` and `role`; every other key
(in particular `get`, which is also absent from `Object.prototype`) resolves
to `undefined`, i.e. `none`. -/
def Message.lookupProp (m : Message) (k : String) : Option JsProp :=
  if k = "content" then m.content.map JsProp.strVal
  else if k = "function_call" then m.function_call.map JsProp.fcVal
  else if k = "name" then m.name.map JsProp.strVal
  else if k = "context" then m.context.map JsProp.strVal
  else if k = "role" then m.role.map JsProp.strVal
  else none

/-- Default termination predicate installed by the constructor
(conversable_agent.js line 38): `x => x.get("content") === "TERMINATE"`.
The predicate receives a stored message (a plain object) or, when the history
is empty, `undefined`. In both cases the call faults: property access on
`undefined` throws, and on a plain message object the property `get` is
`undefined` (see `Message.lookupProp`), so invoking `x.get` throws a
`TypeError`. -/
def defaultIsTerminationMsg (x : Option Message) : Except JsError Bool :=
  match x with
  | none => Except.error JsError.typeError
  | some m =>
    match m.lookupProp "get" with
    | none => Except.error JsError.typeError
    | some _ => Except.error JsError.typeError

/-- JSON argument values, as produced by `JSON.parse`. Numeric literals are
modelled as integers; every numeral occurring in this development is an
integer (see `jsonParseValue` for the restriction). -/
inductive Json where
  | null
  | bool (b : Bool)
  | num (n : Int)
  | str (s : String)
  | arr (xs : List Json)
  | obj (kvs : List (String × Json))

/-- A callable stored in the function map: receives the positional argument
list produced by spreading, returns a value or raises (stringified) an
error. -/
def JsFunc : Type := List Json → Except String Json

/-- Whitespace accepted by `JSON.parse` between tokens. -/
def jsonIsWs (c : Char) : Bool :=
  c = ' ' ∨ c = '\t' ∨ c = '\n' ∨ c = '\r'

/-- Skip leading JSON whitespace. -/
def jsonSkipWs : List Char → List Char
  | [] => []
  | c :: rest => if jsonIsWs c then jsonSkipWs rest else c :: rest

/-- Single-character JSON string escapes. The `\uXXXX` escape is not modelled;
no input in this development uses it. -/
def jsonEscChar (c : Char) : Option Char :=
  if c = '"' then some '"'
  else if c = '\\' then some '\\'
  else if c = '/' then some '/'
  else if c = 'n' then some '\n'
  else if c = 't' then some '\t'
  else if c = 'r' then some '\r'
  else if c = 'b' then some (Char.ofNat 8)
  else if c = 'f' then some (Char.ofNat 12)
  else none

/-- Parse the body of a JSON string after the opening quote, returning the
decoded characters and the remaining input. -/
def jsonParseStringBody : List Char → Except String (List Char × List Char)
  | [] => Except.error "SyntaxError: Unterminated string in JSON"
  | c :: rest =>
    if c = '"' then Except.ok ([], rest)
    else if c = '\\' then
      match rest with
      | [] => Except.error "SyntaxError: Unterminated string in JSON"
      | e :: rest2 =>
        match jsonEscChar e with
        | none => Except.error "SyntaxError: Bad escaped character in JSON"
        | some ec =>
          match jsonParseStringBody rest2 with
          | Except.ok (s, r) => Except.ok (ec :: s, r)
          | Except.error msg => Except.error msg
    else
      match jsonParseStringBody rest with
      | Except.ok (s, r) => Except.ok (c :: s, r)
      | Except.error msg => Except.error msg

/-- Take a maximal run of decimal digits. -/
def jsonTakeDigits : List Char → List Char × List Char
  | [] => ([], [])
  | c :: rest =>
    if c.isDigit then
      let (ds, r) := jsonTakeDigits rest
      (c :: ds, r)
    else ([], c :: rest)

/-- Decimal digits to a natural number. -/
def digitsToNat (ds : List Char) : Nat :=
  List.foldl (fun acc c => acc * 10 + (c.toNat - 48)) 0 ds

/-- Finish a numeric literal. Fractional and exponent forms are outside the
integer model of `Json.num`; every numeral in this development is an
integer. -/
def jsonFinishNumber (n : Int) (r : List Char) : Except String (Json × List Char) :=
  match r with
  | [] => Except.ok (Json.num n, [])
  | c :: _ =>
    if c = '.' ∨ c = 'e' ∨ c = 'E' then
      Except.error "SyntaxError: non-integer numerals are outside this model"
    else Except.ok (Json.num n, r)

mutual

/-- Recursive-descent model of `JSON.parse` for one value. The first argument
is fuel; `jsonParse` supplies enough for any input it is applied to. -/
def jsonParseValue : Nat → List Char → Except String (Json × List Char)
  | 0, _ => Except.error "SyntaxError: JSON nesting too deep"
  | Nat.succ fuel, cs =>
    match jsonSkipWs cs with
    | [] => Except.error "SyntaxError: Unexpected end of JSON input"
    | c :: rest =>
      if c = '\x7b' then jsonParseObject fuel rest
      else if c = '[' then jsonParseArray fuel rest
      else if c = '"' then
        match jsonParseStringBody rest with
        | Except.ok (s, r) => Except.ok (Json.str (String.mk s), r)
        | Except.error e => Except.error e
      else if c = 't' then
        match rest with
        | 'r' :: 'u' :: 'e' :: r => Except.ok (Json.bool true, r)
        | _ => Except.error "SyntaxError: Unexpected token in JSON"
      else if c = 'f' then
        match rest with
        | 'a' :: 'l' :: 's' :: 'e' :: r => Except.ok (Json.bool false, r)
        | _ => Except.error "SyntaxError: Unexpected token in JSON"
      else if c = 'n' then
        match rest with
        | 'u' :: 'l' :: 'l' :: r => Except.ok (Json.null, r)
        | _ => Except.error "SyntaxError: Unexpected token in JSON"
      else if c = '-' then
        match jsonTakeDigits rest with
        | ([], _) => Except.error "SyntaxError: Unexpected token in JSON"
        | (ds, r) => jsonFinishNumber (-(digitsToNat ds : Int)) r
      else if c.isDigit then
        match jsonTakeDigits (c :: rest) with
        | (ds, r) => jsonFinishNumber (digitsToNat ds : Int) r
      else Except.error "SyntaxError: Unexpected token in JSON"

/-- Parse an object after its opening brace. -/
def jsonParseObject : Nat → List Char → Except String (Json × List Char)
  | 0, _ => Except.error "SyntaxError: JSON nesting too deep"
  | Nat.succ fuel, cs =>
    match jsonSkipWs cs with
    | [] => Except.error "SyntaxError: Unexpected end of JSON input"
    | c :: rest =>
      if c = '\x7d' then Except.ok (Json.obj [], rest)
      else if c = '"' then
        match jsonParseStringBody rest with
        | Except.error e => Except.error e
        | Except.ok (k, r1) =>
          match jsonSkipWs r1 with
          | [] => Except.error "SyntaxError: Unexpected end of JSON input"
          | c2 :: r2 =>
            if c2 = ':' then
              match jsonParseValue fuel r2 with
              | Except.error e => Except.error e
              | Except.ok (v, r3) => jsonParseMembers fuel [(String.mk k, v)] r3
            else Except.error "SyntaxError: Unexpected token in JSON"
      else Except.error "SyntaxError: Unexpected token in JSON"

/-- Parse the continuation of an object body after a complete member. -/
def jsonParseMembers : Nat → List (String × Json) → List Char → Except String (Json × List Char)
  | 0, _, _ => Except.error "SyntaxError: JSON nesting too deep"
  | Nat.succ fuel, acc, cs =>
    match jsonSkipWs cs with
    | [] => Except.error "SyntaxError: Unexpected end of JSON input"
    | c :: rest =>
      if c = '\x7d' then Except.ok (Json.obj acc, rest)
      else if c = ',' then
        match jsonSkipWs rest with
        | [] => Except.error "SyntaxError: Unexpected end of JSON input"
        | c2 :: r1 =>
          if c2 = '"' then
            match jsonParseStringBody r1 with
            | Except.error e => Except.error e
            | Except.ok (k, r2) =>
              match jsonSkipWs r2 with
              | [] => Except.error "SyntaxError: Unexpected end of JSON input"
              | c3 :: r3 =>
                if c3 = ':' then
                  match jsonParseValue fuel r3 with
                  | Except.error e => Except.error e
                  | Except.ok (v, r4) => jsonParseMembers fuel (acc ++ [(String.mk k, v)]) r4
                else Except.error "SyntaxError: Unexpected token in JSON"
          else Except.error "SyntaxError: Unexpected token in JSON"
      else Except.error "SyntaxError: Unexpected token in JSON"

/-- Parse an array after its opening bracket. -/
def jsonParseArray : Nat → List Char → Except String (Json × List Char)
  | 0, _ => Except.error "SyntaxError: JSON nesting too deep"
  | Nat.succ fuel, cs =>
    match jsonSkipWs cs with
    | [] => Except.error "SyntaxError: Unexpected end of JSON input"
    | c :: rest =>
      if c = ']' then Except.ok (Json.arr [], rest)
      else
        match jsonParseValue fuel (c :: rest) with
        | Except.error e => Except.error e
        | Except.ok (v, r1) => jsonParseElems fuel [v] r1

/-- Parse the continuation of an array body after a complete element. -/
def jsonParseElems : Nat → List Json → List Char → Except String (Json × List Char)
  | 0, _, _ => Except.error "SyntaxError: JSON nesting too deep"
  | Nat.succ fuel, acc, cs =>
    match jsonSkipWs cs with
    | [] => Except.error "SyntaxError: Unexpected end of JSON input"
    | c :: rest =>
      if c = ']' then Except.ok (Json.arr acc, rest)
      else if c = ',' then
        match jsonParseValue fuel rest with
        | Except.error e => Except.error e
        | Except.ok (v, r1) => jsonParseElems fuel (acc ++ [v]) r1
      else Except.error "SyntaxError: Unexpected token in JSON"

end

/-- Model of `JSON.parse`: parse one value and require only whitespace after
it. Error strings follow the V8 wording loosely; the claims only require
that the parse error is described. -/
def jsonParse (s : String) : Except String Json :=
  match jsonParseValue (s.data.length + 2) s.data with
  | Except.error e => Except.error e
  | Except.ok (v, rest) =>
    match jsonSkipWs rest with
    | [] => Except.ok v
    | _ => Except.error "SyntaxError: Unexpected non-whitespace character after JSON data"

mutual

/-- JavaScript `String(x)` on a JSON value, as used on the function result
(conversable_agent.js line 672). Arrays stringify by joining their elements
with commas (JavaScript renders null elements as empty there; that corner is
not exercised by any claim); plain objects stringify as `[object Object]`. -/
def jsToString : Json → String
  | Json.null => "null"
  | Json.bool true => "true"
  | Json.bool false => "false"
  | Json.num n => toString n
  | Json.str s => s
  | Json.arr xs => String.intercalate "," (jsToStringList xs)
  | Json.obj _ => "[object Object]"

/-- Stringify a list of JSON values elementwise. -/
def jsToStringList : List Json → List String
  | [] => []
  | x :: xs => jsToString x :: jsToStringList xs

end

/-- Representative text of the TypeError raised when spread syntax meets a
non-iterable value (the exact wording is engine-specific). -/
def spreadTypeErrorMsg : String := "TypeError: Found non-callable @@iterator"

/-- JavaScript `func(...args)` (conversable_agent.js line 662): spread syntax
in a call requires the spread value to be iterable. Among values produced by
`JSON.parse`, only arrays and strings are iterable (a string spreads into its
characters); numbers, booleans, `null` and plain objects all make the call
throw a TypeError before `func` runs. -/
def jsSpreadCall (func : JsFunc) (args : Json) : Except String Json :=
  match args with
  | Json.arr xs => func xs
  | Json.str s => func (s.data.map (fun c => Json.str (String.mk [c])))
  | _ => Except.error spreadTypeErrorMsg

/-- State threaded through `formatJsonStr` (conversable_agent.js lines
616-639): whether the scan is inside a quoted span, and the previous
character (used to ignore escaped quotes). -/
structure FmtState where
  insideQuotes : Bool
  lastChar : Char
deriving DecidableEq, Repr

/-- One iteration of the `formatJsonStr` loop: update the quote state, then
emit nothing for a newline outside quotes, the two-character escape for a
newline or tab inside quotes, and the character itself otherwise. -/
def fmtStep (st : FmtState) (c : Char) : FmtState × List Char :=
  let inside := if st.lastChar ≠ '\\' ∧ c = '"' then !st.insideQuotes else st.insideQuotes
  let out :=
    if !inside ∧ c = '\n' then ([] : List Char)
    else if inside ∧ c = '\n' then ['\\', 'n']
    else if inside ∧ c = '\t' then ['\\', 't']
    else [c]
  (⟨inside, c⟩, out)

/-- Run the `formatJsonStr` loop over the remaining characters. -/
def fmtRun (st : FmtState) : List Char → List Char
  | [] => []
  | c :: rest =>
    let p := fmtStep st c
    p.2 ++ fmtRun p.1 rest

/-- `ConversableAgent.formatJsonStr` (conversable_agent.js lines 616-639).
The initial state is outside quotes with last character a space. -/
def formatJsonStr (jstr : String) : String :=
  String.mk (fmtRun ⟨false, ' '⟩ jstr.data)

/-- A raw message argument: the source accepts a bare string or an object
(`_messageToDict`, lines 123-131). Other runtime types fall into a
normalize-to-empty-object branch that no claim exercises, so the input type
excludes them. -/
inductive JsMessageInput where
  | str (s : String)
  | obj (m : Message)
deriving DecidableEq, Repr

/-- `ConversableAgent._messageToDict`: a bare string becomes `{ content }`,
an object passes through. -/
def messageToDict : JsMessageInput → Message
  | JsMessageInput.str s => { content := some s }
  | JsMessageInput.obj m => m

/-- Mutable state of one `ConversableAgent`. Field defaults mirror the
constructor defaults (conversable_agent.js lines 24-55): termination
predicate defaults to `defaultIsTerminationMsg`, the global ceiling to the
class constant `MAX_CONSECUTIVE_AUTO_REPLY = 100`, `humanInputMode` to
`TERMINATE`, and all per-peer maps start empty. The reply-function list and
the code-execution configuration are modelled separately (they are passed
explicitly to the dispatch and code-execution functions below), and the
completion client is an external collaborator. -/
structure AgentState where
  name : String := ""
  _oaiMessages : AgentId → Option (List Message) := fun _ => none
  _isTerminationMsg : Option Message → Except JsError Bool := defaultIsTerminationMsg
  humanInputMode : String := "TERMINATE"
  _maxConsecutiveAutoReply : Int := 100
  _consecutiveAutoReplyCounter : AgentId → Option JsNum := fun _ => none
  _maxConsecutiveAutoReplyDict : AgentId → Option Int := fun _ => none
  _functionMap : List (String × JsFunc) := []
  _defaultAutoReply : String := ""
  replyAtReceive : AgentId → Option Bool := fun _ => none

/-- Normalization and validation step of `_appendOaiMessage`
(conversable_agent.js lines 133-157): copy the truthy fields, reject when
neither content nor function-call survives, keep a requested `function` role,
and force the role to `assistant` whenever a function-call is present. -/
def mkOaiMessage (message : Message) (role : String) : Option Message :=
  let content := if truthyStr message.content then message.content else none
  let function_call := message.function_call
  let name := if truthyStr message.name then message.name else none
  let context := if truthyStr message.context then message.context else none
  if content = none ∧ function_call = none then none
  else
    let role1 := if message.role = some "function" then "function" else role
    let role2 := if function_call.isSome then "assistant" else role1
    some { content := content, function_call := function_call, name := name,
           context := context, role := some role2 }

/-- `ConversableAgent._appendOaiMessage` (lines 133-166): normalize, validate,
and append to the per-peer history (creating it on first use); returns the
updated state and the validity flag. -/
def _appendOaiMessage (A : AgentState) (message : JsMessageInput) (role : String)
    (conversationId : AgentId) : AgentState × Bool :=
  let m := messageToDict message
  match mkOaiMessage m role with
  | none => (A, false)
  | some oaiMessage =>
    let history := (A._oaiMessages conversationId).getD []
    ({ A with _oaiMessages :=
        fun a => if a = conversationId then some (history ++ [oaiMessage])
                 else A._oaiMessages a },
     true)

/-- Text of the validation error thrown by `send` (line 172; wording abridged
from the source, which phrases it with a contraction). -/
def sendInvalidErrMsg : String :=
  "Message cannot be converted into a valid ChatCompletion message. Either content or function_call must be provided."

/-- `ConversableAgent.send` (lines 168-176): append with role `assistant`,
throw when invalid, otherwise hand the raw message to the recipient. The
recipient invocation `recipient.receive(message, this, requestReply, silent)`
is returned as data (recipient identity plus forwarded message). -/
def send (A : AgentState) (message : JsMessageInput) (recipient : AgentId) :
    Except JsError (AgentState × JsMessageInput × AgentId) :=
  match _appendOaiMessage A message "assistant" recipient with
  | (_, false) => Except.error (JsError.jsError sendInvalidErrMsg)
  | (A1, true) => Except.ok (A1, message, recipient)

/-- Method and accessor names defined on `ConversableAgent` (and inherited
from `Agent`), i.e. the keys under which `this.<name>` resolves to a
function or getter. Collected from the two class bodies; note the store
append method is spelled `_appendOaiMessage` (lines 133, 169, 179) while
`_processReceivedMessage` invokes `this._appendOAIMessage` (line 216), a
name that appears nowhere in either class. -/
def conversableAgentMethodNames : List String :=
  ["constructor", "registerReply", "systemMessage", "updateSystemMessage",
   "updateMaxConsecutiveAutoReply", "maxConsecutiveAutoReply", "chatMessages",
   "lastMessage", "useDocker", "_messageToDict", "_appendOaiMessage", "send",
   "aSend", "_printReceivedMessage", "_processReceivedMessage", "receive",
   "aReceive", "_prepareChat", "initiateChat", "aInitiateChat", "reset",
   "stopReplyAtReceive", "resetConsecutiveAutoReplyCounter", "clearHistory",
   "generateOAIReply", "generateCodeExecutionReply", "generateFunctionCallReply",
   "generateAsyncFunctionCallReply", "checkTerminationAndHumanReply",
   "aCheckTerminationAndHumanReply", "generateReply", "aGenerateReply",
   "_matchTrigger", "getHumanInput", "aGetHumanInput", "runCode",
   "executeCodeBlocks", "formatJsonStr", "executeFunction", "aExecuteFunction",
   "generateInitMessage", "registerFunction", "canExecuteFunction",
   "functionMap", "name"]

/-- `ConversableAgent._processReceivedMessage` (lines 214-223). Line 216 reads
`const valid = this._appendOAIMessage(message, 'user', sender);` — but the
class defines `_appendOaiMessage` (lowercase `ai`), so the property
`_appendOAIMessage` is `undefined` and invoking it throws a TypeError before
anything is appended. The guarded branch shows the behaviour the surrounding
code expects of the call (append with role `user`, fatal error when
invalid). -/
def _processReceivedMessage (A : AgentState) (message : JsMessageInput)
    (sender : AgentId) : Except JsError AgentState :=
  if conversableAgentMethodNames.contains "_appendOAIMessage" then
    match _appendOaiMessage A message "user" sender with
    | (_, false) => Except.error (JsError.jsError
        "Received message cannot be converted into a valid ChatCompletion message. Either content or function_call must be provided.")
    | (A1, true) => Except.ok A1
  else Except.error JsError.typeError

/-- `ConversableAgent.receive` (lines 225-234): process the incoming message,
decide whether a reply is requested (default: the per-peer `replyAtReceive`
flag, with `undefined` falsy), dispatch over the history with the sender, and
send a non-null dispatch result back. The dispatch engine `generateReply` is
passed as a parameter; its built-in strategies are embedded individually
below. The value returned models the outgoing `send` action, if any. -/
def receive (A : AgentState)
    (generateReply : AgentState → List Message → AgentId →
      Except JsError (AgentState × Option JsMessageInput))
    (message : JsMessageInput) (sender : AgentId) (requestReply : Option Bool) :
    Except JsError (AgentState × Option (JsMessageInput × AgentId)) := do
  let A1 ← _processReceivedMessage A message sender
  if requestReply = some false ∨
      (requestReply = none ∧ ¬ (A1.replyAtReceive sender).getD false) then
    pure (A1, none)
  else
    let pr ← generateReply A1 ((A1._oaiMessages sender).getD []) sender
    match pr.2 with
    | none => pure (pr.1, none)
    | some reply => do
      let sr ← send pr.1 reply sender
      pure (sr.1, some (sr.2.1, sr.2.2))

/-- Trigger shapes accepted by `registerReply` / `_matchTrigger` (lines 57-59,
541-555): `null`, a name string, a predicate over the sender, a specific
agent (reference equality), the `Agent` class object, or a list combined by
logical OR. Any other runtime shape makes `registerReply` throw; the
inductive excludes those shapes, so the validation on lines 58-60 always
passes here. -/
inductive Trigger where
  | null
  | name (s : String)
  | pred (f : Option AgentId → Bool)
  | agentRef (a : AgentId)
  | agentClass
  | anyOf (ts : List Trigger)

/-- One entry of the reply-function list (lines 62-68). The `config`,
`initConfig` and `resetConfig` bookkeeping fields are not modelled: no claim
refers to per-entry config state. -/
structure ReplyEntry (α : Type) where
  trigger : Trigger
  replyFunc : α

/-- `registerReply` with an explicit position: the source inserts with
`this._replyFuncList.splice(position, 0, replyFuncTuple)` (line 70), which
clamps the position to the list length. -/
def registerReplyAt {α : Type} (l : List (ReplyEntry α)) (trigger : Trigger)
    (replyFunc : α) (position : Nat) : List (ReplyEntry α) :=
  l.take position ++ ReplyEntry.mk trigger replyFunc :: l.drop position

/-- `registerReply` at the default position `0` (line 57). -/
def registerReply {α : Type} (l : List (ReplyEntry α)) (trigger : Trigger)
    (replyFunc : α) : List (ReplyEntry α) :=
  registerReplyAt l trigger replyFunc 0

/-- Tags for the five built-in reply strategies registered by the
constructor. -/
inductive BuiltinStrategy where
  | generateOAIReply
  | generateCodeExecutionReply
  | generateFunctionCallReply
  | generateAsyncFunctionCallReply
  | checkTerminationAndHumanReply
deriving DecidableEq, Repr

/-- The trigger used for every constructor-time registration:
`[Agent, null]` (lines 50-54). -/
def builtinTrigger : Trigger := Trigger.anyOf [Trigger.agentClass, Trigger.null]

/-- The reply-function list produced by the constructor (lines 50-54): five
successive default-position registrations, `generateOAIReply` first,
`checkTerminationAndHumanReply` last. -/
def constructorReplyFuncList : List (ReplyEntry BuiltinStrategy) :=
  registerReply
    (registerReply
      (registerReply
        (registerReply
          (registerReply ([] : List (ReplyEntry BuiltinStrategy))
            builtinTrigger BuiltinStrategy.generateOAIReply)
          builtinTrigger BuiltinStrategy.generateCodeExecutionReply)
        builtinTrigger BuiltinStrategy.generateFunctionCallReply)
      builtinTrigger BuiltinStrategy.generateAsyncFunctionCallReply)
    builtinTrigger BuiltinStrategy.checkTerminationAndHumanReply

/-- `ConversableAgent.maxConsecutiveAutoReply` (lines 92-96): with no sender,
the global value; with a sender, the raw `Map.get` of the per-peer dict
(`undefined`, i.e. `none`, when the sender has no entry — there is no
fallback in the source). -/
def maxConsecutiveAutoReply (A : AgentState) (sender : Option AgentId) : Option Int :=
  match sender with
  | none => some A._maxConsecutiveAutoReply
  | some s => A._maxConsecutiveAutoReplyDict s

/-- Overwrite the per-peer consecutive-auto-reply counter at one peer. -/
def setCounter (A : AgentState) (s : AgentId) (v : JsNum) : AgentState :=
  { A with _consecutiveAutoReplyCounter :=
      fun a => if a = s then some v else A._consecutiveAutoReplyCounter a }

/-- Reply-computation phase of `checkTerminationAndHumanReply` (lines
390-417), producing the local `reply` string. `getHumanInput` is the
human-input collaborator (the base-class implementation always resolves to
the empty string, see `baseGetHumanInput`); prompts are interpolated from the
sender identity with wording abridged from the source. The termination
predicate receives `messages[messages.length - 1]`, which is `undefined` for
an empty history. Note the short-circuit of `||`: the predicate is only
consulted when the human input is empty. -/
def ctComputeReply (A : AgentState) (getHumanInput : String → String)
    (messages : List Message) (sender : AgentId) : Except JsError String :=
  let message := messages.getLast?
  if A.humanInputMode = "ALWAYS" then do
    let reply := getHumanInput
      ("Provide feedback to " ++ toString sender ++ ". Press enter to skip and use auto-reply, or type exit to end the conversation: ")
    if reply ≠ "" then pure reply
    else do
      let terminate ← A._isTerminationMsg message
      pure (if terminate then "exit" else "")
  else
    if jsGE (A._consecutiveAutoReplyCounter sender) (A._maxConsecutiveAutoReplyDict sender) then
      if A.humanInputMode = "NEVER" then pure "exit"
      else do
        let terminate ← A._isTerminationMsg message
        let reply := getHumanInput
          (if terminate then
            "Please give feedback to " ++ toString sender ++ ". Press enter or type exit to stop the conversation: "
          else
            "Please give feedback to " ++ toString sender ++ ". Press enter to skip and use auto-reply, or type exit to stop the conversation: ")
        pure (if reply ≠ "" then reply else if terminate then "exit" else "")
    else do
      let terminate ← A._isTerminationMsg message
      pure (if terminate then "exit" else "")

/-- Counter-update and result phase of `checkTerminationAndHumanReply` (lines
419-438): `exit` resets the counter and is definitive with a null payload; a
truthy reply or a per-peer ceiling entry of exactly `0` resets the counter
and is definitive with the reply as payload; otherwise the counter is set to
its JavaScript successor and the strategy is non-definitive. -/
def ctTail (A : AgentState) (sender : AgentId) (reply : String) :
    AgentState × Bool × Option String :=
  if reply = "exit" then
    (setCounter A sender (JsNum.num 0), true, none)
  else if reply ≠ "" ∨ A._maxConsecutiveAutoReplyDict sender = some 0 then
    (setCounter A sender (JsNum.num 0), true, some reply)
  else
    (setCounter A sender (jsAddOne (A._consecutiveAutoReplyCounter sender)), false, none)

/-- `ConversableAgent.checkTerminationAndHumanReply` (lines 390-439): compute
the reply (possibly faulting inside the termination predicate), then apply
the counter-update phase. Console output (the no-human-input notice and the
auto-reply notice) is omitted. -/
def checkTerminationAndHumanReply (A : AgentState) (getHumanInput : String → String)
    (messages : List Message) (sender : AgentId) :
    Except JsError (AgentState × Bool × Option String) := do
  let reply ← ctComputeReply A getHumanInput messages sender
  pure (ctTail A sender reply)

/-- The base-class `getHumanInput` (lines 557-565): the input mechanism is a
placeholder that always resolves to the empty string. -/
def baseGetHumanInput : String → String := fun _ => ""

/-- Number of messages to scan when `lastNMessages` is `"auto"` (lines
330-337): walk backwards from the last message, stopping at the first
message whose role is missing or differs from `user`. Walking backwards and
counting is counting the leading `user`-role messages of the reversed
list. -/
def countLeadingUsers : List Message → Nat
  | [] => 0
  | m :: rest => if m.role = some "user" then countLeadingUsers rest + 1 else 0

/-- Auto window size: leading `user` messages of the reversed history. -/
def autoScanCount (messages : List Message) : Nat :=
  countLeadingUsers messages.reverse

/-- The `lastNMessages` configuration value: a fixed count or `"auto"`. -/
inductive LastN where
  | count (n : Nat)
  | auto
deriving DecidableEq, Repr

/-- Code-execution configuration record; only the `lastNMessages` field is
read or written by `generateCodeExecutionReply`. -/
structure CodeExecConfig where
  lastNMessages : Option LastN := none
deriving DecidableEq, Repr

/-- A code-execution setting: `false` (disabled) or a config object. -/
inductive CodeExecSetting where
  | disabled
  | enabled (c : CodeExecConfig)
deriving DecidableEq, Repr

/-- The skip test on line 347: a single extracted block tagged with the
unknown language. -/
def isSingleUnknown (unknown : String) : List (String × String) → Bool
  | [(lang, _)] => lang = unknown
  | _ => false

/-- Result formatting on lines 354-355. -/
def formatCodeResult (r : Int × String) : String :=
  "exitcode: " ++ toString r.1 ++ " (" ++
    (if r.1 = 0 then "execution succeeded" else "execution failed") ++
    ")\nCode output: " ++ r.2

/-- Scan loop of `generateCodeExecutionReply` (lines 341-356) over the
window, oldest first: skip messages with falsy content and messages whose
only extracted block is language-unknown; execute the blocks of the first
remaining message and return the formatted result. -/
def scanWindowForCode (extractCode : String → List (String × String))
    (unknown : String) (executeCodeBlocks : List (String × String) → Int × String) :
    List Message → Option String
  | [] => none
  | m :: rest =>
    if truthyStr m.content = false then
      scanWindowForCode extractCode unknown executeCodeBlocks rest
    else
      let codeBlocks := extractCode (m.content.getD "")
      if isSingleUnknown unknown codeBlocks then
        scanWindowForCode extractCode unknown executeCodeBlocks rest
      else some (formatCodeResult (executeCodeBlocks codeBlocks))

/-- `ConversableAgent.generateCodeExecutionReply` (lines 319-361).
`extractCode` and the unknown-language marker come from the external
`codeUtils` module, and `executeCodeBlocks` wraps the external code runner;
all three are parameters. The resolved configuration (the `config` argument
if non-null, else the agent field) is the `codeExecutionConfig` parameter.
Returns the written-back configuration (line 353/359 store the resolved
`lastNMessages`) and the `(final, reply)` pair. -/
def generateCodeExecutionReply (extractCode : String → List (String × String))
    (unknown : String) (executeCodeBlocks : List (String × String) → Int × String)
    (codeExecutionConfig : CodeExecSetting) (messages : List Message) :
    CodeExecSetting × Bool × Option String :=
  match codeExecutionConfig with
  | CodeExecSetting.disabled => (CodeExecSetting.disabled, false, none)
  | CodeExecSetting.enabled cfg =>
    let lastN := cfg.lastNMessages.getD (LastN.count 1)
    let messagesToScan : Nat :=
      match lastN with
      | LastN.count n => n
      | LastN.auto => autoScanCount messages
    let window := messages.drop (messages.length - messagesToScan)
    match scanWindowForCode extractCode unknown executeCodeBlocks window with
    | some result =>
      (CodeExecSetting.enabled { lastNMessages := some lastN }, true, some result)
    | none =>
      (CodeExecSetting.enabled { lastNMessages := some lastN }, false, none)

/-- Association-list lookup modelling `this._functionMap[funcName]`. -/
def lookupFn (m : List (String × JsFunc)) (k : String) : Option JsFunc :=
  (m.find? (fun p => p.1 = k)).map Prod.snd

/-- The argument payload actually used: `funcCall.args || '{}'` (line 649) —
a missing or empty string falls back to the two-character object literal. -/
def executeFunctionArgsStr (funcCall : FunctionCall) : String :=
  match funcCall.args with
  | some s => if s = "" then "\x7b\x7d" else s
  | none => "\x7b\x7d"

/-- `ConversableAgent.executeFunction` (lines 641-673): look the name up
(missing or falsy name keys as the empty string), re-escape and parse the
arguments, spread them into the callable, and package every outcome — lookup
miss, parse failure, call fault, or success — into a `role:function` result
message; the returned flag is true only on a fault-free call. The function
is total: no failure escapes as an exception. -/
def executeFunction (A : AgentState) (funcCall : FunctionCall) : Bool × Message :=
  let funcName := funcCall.name.getD ""
  match lookupFn A._functionMap funcName with
  | none =>
    (false, { name := some funcName, role := some "function",
              content := some ("Error: Function " ++ funcName ++ " not found.") })
  | some func =>
    let inputString := formatJsonStr (executeFunctionArgsStr funcCall)
    match jsonParse inputString with
    | Except.error e =>
      (false, { name := some funcName, role := some "function",
                content := some ("Error: " ++ e ++ "\n Your argument should follow JSON format.") })
    | Except.ok args =>
      match jsSpreadCall func args with
      | Except.error e =>
        (false, { name := some funcName, role := some "function",
                  content := some ("Error: " ++ e) })
      | Except.ok v =>
        (true, { name := some funcName, role := some "function",
                 content := some (jsToString v) })

/-! Theorems settling the claims. -/

/-- Shared evaluation lemma: every call to `receive` faults with a TypeError
in `_processReceivedMessage`, because line 216 invokes the undefined property
`_appendOAIMessage`. -/
theorem receive_eq_typeError (A : AgentState)
    (gr : AgentState → List Message → AgentId → Except JsError (AgentState × Option JsMessageInput))
    (message : JsMessageInput) (sender : AgentId) (requestReply : Option Bool) :
    receive A gr message sender requestReply = Except.error JsError.typeError := rfl

/-- C1: the claim says `receive` appends the normalized message with role
`user` (fatal error when neither content nor function-call), then dispatches
over the history and sends a non-null result back. The code instead throws a
TypeError on every `receive`: `_processReceivedMessage` calls
`this._appendOAIMessage`, a property that is not defined on the class (the
method is `_appendOaiMessage`), so nothing is ever appended and dispatch is
never reached. -/
theorem C1_receive_faults_before_append :
    (conversableAgentMethodNames.contains "_appendOAIMessage" = false ∧
     conversableAgentMethodNames.contains "_appendOaiMessage" = true) ∧
    ∀ (A : AgentState)
      (gr : AgentState → List Message → AgentId → Except JsError (AgentState × Option JsMessageInput))
      (message : JsMessageInput) (sender : AgentId) (requestReply : Option Bool),
      receive A gr message sender requestReply = Except.error JsError.typeError := by
  exact ⟨⟨rfl, rfl⟩, receive_eq_typeError⟩

/-- The registered function of the round-trip scenario: `f(a, b) => a + b`
applied to two positional integer arguments. Other arities would produce
`NaN` in JavaScript; they are not exercised here. -/
def addFn : JsFunc := fun args =>
  match args with
  | [Json.num a, Json.num b] => Except.ok (Json.num (a + b))
  | _ => Except.ok Json.null

/-- Agent holding the function map of the round-trip scenario. -/
def c2Agent : AgentState := { _functionMap := [("f", addFn)] }

/-- The argument string of the round-trip scenario. -/
def c2Args : String := "\x7b\"a\":2,\"b\":3\x7d"

/-- C2: the claim says `executeFunction` on `f` with arguments
`{"a":2,"b":3}` returns success with content `"5"`. The arguments parse to a
plain JSON object, and line 662 spreads it into the call (`func(...args)`);
a plain object is not iterable, so the call throws a TypeError that the
surrounding try/catch converts into a failure result. The function itself
would return 5 on positional arguments (third conjunct), but it is never
invoked. -/
theorem C2_object_args_spread_fails :
    executeFunction c2Agent { name := some "f", args := some c2Args } =
      (false, { name := some "f", role := some "function",
                content := some ("Error: " ++ spreadTypeErrorMsg) }) ∧
    jsonParse c2Args = Except.ok (Json.obj [("a", Json.num 2), ("b", Json.num 3)]) ∧
    addFn [Json.num 2, Json.num 3] = Except.ok (Json.num 5) := by
  exact ⟨rfl, rfl, rfl⟩

/-- C3: registering at the default position prepends the entry, so it is
evaluated before every previously registered entry (the dispatch loop on
lines 502-513 walks the list front to back); consequently the five
constructor-time built-ins end up with `checkTerminationAndHumanReply` first
and `generateOAIReply` last. -/
theorem C3_registerReply_default_lifo :
    (∀ (α : Type) (l : List (ReplyEntry α)) (t : Trigger) (f : α),
       registerReply l t f = ReplyEntry.mk t f :: l) ∧
    constructorReplyFuncList.map ReplyEntry.replyFunc =
      [BuiltinStrategy.checkTerminationAndHumanReply,
       BuiltinStrategy.generateAsyncFunctionCallReply,
       BuiltinStrategy.generateFunctionCallReply,
       BuiltinStrategy.generateCodeExecutionReply,
       BuiltinStrategy.generateOAIReply] := by
  constructor
  · intro α l t f
    simp [registerReply, registerReplyAt]
  · rfl

/-- C4: the claim says the default termination judgment holds exactly on
content `"TERMINATE"` and never faults. The default predicate
`x => x.get("content") === "TERMINATE"` (line 38) instead faults on every
stored message: stored messages are plain objects with no `get` method, so
the call throws a TypeError — including on the exact content the claim
singles out. -/
theorem C4_default_termination_always_faults :
    defaultIsTerminationMsg (some { content := some "TERMINATE", role := some "user" }) =
      Except.error JsError.typeError ∧
    defaultIsTerminationMsg (some { content := some "hello", role := some "user" }) =
      Except.error JsError.typeError ∧
    ∀ x : Option Message, defaultIsTerminationMsg x = Except.error JsError.typeError := by
  refine ⟨rfl, rfl, ?_⟩
  intro x
  cases x with
  | none => rfl
  | some m =>
    cases hm : Message.lookupProp m "get" <;> simp [defaultIsTerminationMsg, hm]

/-- Termination predicate stub used where a claim needs the strategy to run
to completion (the default predicate faults, see C4): a constructor-supplied
predicate that is false on every message. -/
def termPredFalse : Option Message → Except JsError Bool := fun _ => Except.ok false

/-- The peer used in the C5 scenario. -/
def c5Sender : AgentId := 7

/-- Agent for the C5 scenario: fresh constructor state (global ceiling 100,
per-peer ceiling dict empty) except that the peer counter already stands at
1000, `humanInputMode` is `NEVER`, and the termination predicate is a
non-faulting stub. -/
def c5Agent : AgentState :=
  { humanInputMode := "NEVER",
    _isTerminationMsg := termPredFalse,
    _consecutiveAutoReplyCounter :=
      fun a => if a = c5Sender then some (JsNum.num 1000) else none }

/-- A stored message for the C5 scenario. -/
def c5Msg : Message := { content := some "hello", role := some "user" }

/-- C5: the claim says an unset per-peer ceiling falls back to the global
ceiling, both in `maxConsecutiveAutoReply` and in the strategy comparison.
The code has no fallback: `maxConsecutiveAutoReply(sender)` is a raw
`Map.get`, returning `undefined` for an unset peer (first conjunct) even
though the global ceiling is 100 (second conjunct); the line 402 comparison
against that `undefined` is false for every counter value (third conjunct);
and concretely a counter of 1000 — ten times the global ceiling — does not
escalate under `NEVER`: the strategy just increments to 1001 and returns
non-definitive (fourth conjunct). -/
theorem C5_no_global_ceiling_fallback :
    maxConsecutiveAutoReply c5Agent (some c5Sender) = none ∧
    maxConsecutiveAutoReply c5Agent none = some 100 ∧
    (∀ c : Option JsNum, jsGE c (c5Agent._maxConsecutiveAutoReplyDict c5Sender) = false) ∧
    (checkTerminationAndHumanReply c5Agent baseGetHumanInput [c5Msg] c5Sender).map
        (fun r => (r.2.1, r.2.2, r.1._consecutiveAutoReplyCounter c5Sender)) =
      Except.ok (false, none, some (JsNum.num 1001)) := by
  refine ⟨rfl, rfl, ?_, rfl⟩
  intro c
  cases c with
  | none => rfl
  | some v => cases v <;> rfl

/-- C6: within one completed invocation of the termination/human-interrupt
strategy, with the peer counter holding the integer `n` and the obtained
internal reply being `r`: the counter is set to exactly 0 whenever `r` is
`"exit"`, `r` is non-empty, or the per-peer ceiling entry is exactly 0; in
the remaining branch (empty reply, ceiling entry not 0) the counter becomes
exactly `n + 1` and the strategy returns non-definitive with a null
payload. -/
theorem C6_checkTermination_counter_updates
    (A : AgentState) (getHumanInput : String → String) (messages : List Message)
    (sender : AgentId) (n : Int)
    (hc : A._consecutiveAutoReplyCounter sender = some (JsNum.num n))
    (r : String)
    (hr : ctComputeReply A getHumanInput messages sender = Except.ok r) :
    checkTerminationAndHumanReply A getHumanInput messages sender =
      Except.ok (ctTail A sender r) ∧
    ((r = "exit" ∨ r ≠ "" ∨ A._maxConsecutiveAutoReplyDict sender = some 0) →
      (ctTail A sender r).1._consecutiveAutoReplyCounter sender = some (JsNum.num 0)) ∧
    ((r = "" ∧ A._maxConsecutiveAutoReplyDict sender ≠ some 0) →
      (ctTail A sender r).1._consecutiveAutoReplyCounter sender = some (JsNum.num (n + 1)) ∧
      (ctTail A sender r).2.1 = false ∧
      (ctTail A sender r).2.2 = none) := by
  refine ⟨?_, ?_, ?_⟩
  · simp [checkTerminationAndHumanReply, hr]
  · intro h
    unfold ctTail
    by_cases h1 : r = "exit"
    · simp [h1, setCounter]
    · by_cases h2 : r ≠ "" ∨ A._maxConsecutiveAutoReplyDict sender = some 0
      · simp [h1, h2, setCounter]
      · rcases h with h | h | h
        · exact absurd h h1
        · exact absurd (Or.inl h) h2
        · exact absurd (Or.inr h) h2
  · rintro ⟨he, hd⟩
    have h1 : ¬ r = "exit" := by
      rw [he]; decide
    unfold ctTail
    rw [if_neg h1, if_neg (by push_neg; exact ⟨he, hd⟩)]
    simp [setCounter, hc, jsAddOne]

/-- The peer of the C6 witness scenario. -/
def c6Sender : AgentId := 3

/-- Agent for the C6 witness: `NEVER` mode, counter at 0, ceiling dict empty,
non-faulting termination predicate. -/
def c6Agent : AgentState :=
  { humanInputMode := "NEVER",
    _isTerminationMsg := termPredFalse,
    _consecutiveAutoReplyCounter :=
      fun a => if a = c6Sender then some (JsNum.num 0) else none }

/-- A stored message for the C6 witness. -/
def c6Msg : Message := { content := some "hi", role := some "user" }

/-- Witness for C6: concrete run in which the strategy obtains the empty
reply, increments the counter from 0 to 1 and returns non-definitive. -/
theorem C6_checkTermination_counter_updates_witness :
    ctComputeReply c6Agent baseGetHumanInput [c6Msg] c6Sender = Except.ok "" ∧
    checkTerminationAndHumanReply c6Agent baseGetHumanInput [c6Msg] c6Sender =
      Except.ok (ctTail c6Agent c6Sender "") ∧
    (ctTail c6Agent c6Sender "").1._consecutiveAutoReplyCounter c6Sender =
      some (JsNum.num (0 + 1)) ∧
    (ctTail c6Agent c6Sender "").2.1 = false := by
  have h := C6_checkTermination_counter_updates c6Agent baseGetHumanInput [c6Msg]
    c6Sender 0 rfl "" rfl
  have h3 := h.2.2 ⟨rfl, by decide⟩
  exact ⟨rfl, h.1, h3.1, h3.2.1⟩

/-- The validity flag of normalization: a normalized message survives exactly
when its content is truthy or a function-call is present. -/
theorem mkOaiMessage_isSome (m : Message) (role : String) :
    (mkOaiMessage m role).isSome = (truthyStr m.content || m.function_call.isSome) := by
  unfold mkOaiMessage
  by_cases ht : truthyStr m.content = true
  · cases hc : m.content with
    | none => rw [hc] at ht; simp [truthyStr] at ht
    | some s =>
      rw [hc] at ht
      simp [ht, hc]
  · have ht' : truthyStr m.content = false := by
      cases hb : truthyStr m.content
      · rfl
      · exact absurd hb ht
    cases hf : m.function_call with
    | none => simp [ht', hf]
    | some fc => simp [ht', hf]

/-- Invalid messages normalize to nothing, for any requested role. -/
theorem mkOaiMessage_eq_none (m : Message) (role : String)
    (hct : truthyStr m.content = false) (hcf : m.function_call = none) :
    mkOaiMessage m role = none := by
  have h := mkOaiMessage_isSome m role
  rw [hct, hcf] at h
  simp at h
  cases hmk : mkOaiMessage m role with
  | none => rfl
  | some stored =>
    rw [hmk] at h
    simp at h

/-- Role forcing: whenever the incoming message carries a function-call, the
normalized message that gets stored has role `assistant`, regardless of the
requested role. -/
theorem mkOaiMessage_role_assistant (m : Message) (role : String) (stored : Message)
    (hmk : mkOaiMessage m role = some stored) (hf : m.function_call.isSome = true) :
    stored.role = some "assistant" := by
  unfold mkOaiMessage at hmk
  by_cases hcond :
      (if truthyStr m.content = true then m.content else none) = none ∧
        m.function_call = none
  · simp [hcond] at hmk
  · rw [if_neg hcond] at hmk
    injection hmk with h
    subst h
    simp [hf]

/-- C7: `_appendOaiMessage` stores and reports success exactly when the
normalized message has truthy content or a function-call; when a
function-call is present the stored role is forced to `assistant`; when both
are absent, append reports failure, `send` throws its validation error, and
`receive` also raises a fatal error rather than proceeding (in the source the
`receive` fault is the line 216 TypeError, which fires before the validity
check — see C1 — but the caller still does not proceed). -/
theorem C7_append_validity_and_role
    (A : AgentState) (msgIn : JsMessageInput) (role : String) (cid : AgentId) :
    ((_appendOaiMessage A msgIn role cid).2 =
       (truthyStr (messageToDict msgIn).content || (messageToDict msgIn).function_call.isSome)) ∧
    (∀ stored, mkOaiMessage (messageToDict msgIn) role = some stored →
      ((messageToDict msgIn).function_call.isSome = true → stored.role = some "assistant") ∧
      (_appendOaiMessage A msgIn role cid).1._oaiMessages cid =
        some (((A._oaiMessages cid).getD []) ++ [stored])) ∧
    ((truthyStr (messageToDict msgIn).content = false ∧
        (messageToDict msgIn).function_call = none) →
      (_appendOaiMessage A msgIn role cid).2 = false ∧
      send A msgIn cid = Except.error (JsError.jsError sendInvalidErrMsg) ∧
      (∀ gr requestReply,
        ∃ e, receive A gr msgIn cid requestReply = Except.error e)) := by
  refine ⟨?_, ?_, ?_⟩
  · have h := mkOaiMessage_isSome (messageToDict msgIn) role
    simp only [_appendOaiMessage]
    cases hmk : mkOaiMessage (messageToDict msgIn) role with
    | none =>
      rw [hmk] at h
      simpa using h.symm
    | some stored =>
      rw [hmk] at h
      simpa using h.symm
  · intro stored hmk
    refine ⟨fun hf => mkOaiMessage_role_assistant _ role stored hmk hf, ?_⟩
    simp [_appendOaiMessage, hmk]
  · rintro ⟨hct, hcf⟩
    refine ⟨?_, ?_, ?_⟩
    · simp only [_appendOaiMessage, mkOaiMessage_eq_none _ role hct hcf]
    · simp only [send, _appendOaiMessage, mkOaiMessage_eq_none _ "assistant" hct hcf]
    · intro gr requestReply
      exact ⟨JsError.typeError, receive_eq_typeError A gr msgIn cid requestReply⟩

/-- Input for the C7 witness: a message carrying only a function-call, with a
requested role of `user`. -/
def c7FcInput : JsMessageInput :=
  JsMessageInput.obj { function_call := some { name := some "g", args := some "[]" } }

/-- Expected normalized stored message for the C7 witness: role forced to
`assistant`. -/
def c7Stored : Message :=
  { function_call := some { name := some "g", args := some "[]" },
    role := some "assistant" }

/-- Witness for C7: a function-call-only message appends successfully with
role `assistant`, and the empty message makes append fail and `send`
throw. -/
theorem C7_append_validity_and_role_witness :
    (_appendOaiMessage ({} : AgentState) c7FcInput "user" 2).2 = true ∧
    mkOaiMessage (messageToDict c7FcInput) "user" = some c7Stored ∧
    c7Stored.role = some "assistant" ∧
    (_appendOaiMessage ({} : AgentState) c7FcInput "user" 2).1._oaiMessages 2 =
      some [c7Stored] ∧
    (_appendOaiMessage ({} : AgentState) (JsMessageInput.obj {}) "user" 2).2 = false ∧
    send ({} : AgentState) (JsMessageInput.obj {}) 2 =
      Except.error (JsError.jsError sendInvalidErrMsg) := by
  have h := C7_append_validity_and_role ({} : AgentState) c7FcInput "user" 2
  have h0 := C7_append_validity_and_role ({} : AgentState) (JsMessageInput.obj {}) "user" 2
  have hstore := h.2.1 c7Stored rfl
  have hbad := h0.2.2 ⟨rfl, rfl⟩
  refine ⟨by rw [h.1]; rfl, rfl, hstore.1 rfl, ?_, hbad.1, hbad.2.1⟩
  have h2 := hstore.2
  simpa using h2

/-- The backward-walking count equals a takeWhile length. -/
theorem countLeadingUsers_eq_takeWhile (l : List Message) :
    countLeadingUsers l =
      (l.takeWhile (fun m => decide (m.role = some "user"))).length := by
  induction l with
  | nil => rfl
  | cons m rest ih =>
    by_cases h : m.role = some "user"
    · simp [countLeadingUsers, List.takeWhile_cons, h, ih]
    · simp [countLeadingUsers, List.takeWhile_cons, h]

/-- A list whose head (if any) is not a `user` message contributes no leading
users. -/
theorem countLeadingUsers_eq_zero (l : List Message)
    (h : ∀ m, l.head? = some m → ¬ m.role = some "user") :
    countLeadingUsers l = 0 := by
  cases l with
  | nil => rfl
  | cons m rest => simp [countLeadingUsers, h m rfl]

/-- C8: with `lastNMessages = "auto"`, the scan window size equals the count
of consecutive trailing messages with role `user` (first conjunct, stated for
every history), and in the scenario where the last three messages all have
role `user`, the message before them (if any) does not, and only the oldest
of the three carries extractable code blocks (the other two are skipped as
contentless or single-unknown), the window is 3 and the strategy executes
exactly those blocks and returns the formatted result as definitive. -/
theorem C8_generateCodeExecutionReply_auto_window :
    (∀ ms : List Message,
       autoScanCount ms =
         (ms.reverse.takeWhile (fun m => decide (m.role = some "user"))).length) ∧
    (∀ (extractCode : String → List (String × String)) (unknown : String)
       (executeCodeBlocks : List (String × String) → Int × String)
       (pre : List Message) (m1 m2 m3 : Message) (bs : List (String × String)),
       m1.role = some "user" → m2.role = some "user" → m3.role = some "user" →
       (∀ m, pre.getLast? = some m → ¬ m.role = some "user") →
       truthyStr m1.content = true →
       extractCode (m1.content.getD "") = bs →
       isSingleUnknown unknown bs = false →
       (truthyStr m2.content = false ∨
         isSingleUnknown unknown (extractCode (m2.content.getD "")) = true) →
       (truthyStr m3.content = false ∨
         isSingleUnknown unknown (extractCode (m3.content.getD "")) = true) →
       autoScanCount (pre ++ [m1, m2, m3]) = 3 ∧
       generateCodeExecutionReply extractCode unknown executeCodeBlocks
           (CodeExecSetting.enabled { lastNMessages := some LastN.auto })
           (pre ++ [m1, m2, m3]) =
         (CodeExecSetting.enabled { lastNMessages := some LastN.auto }, true,
          some (formatCodeResult (executeCodeBlocks bs)))) := by
  constructor
  · intro ms
    exact countLeadingUsers_eq_takeWhile ms.reverse
  · intro extractCode unknown executeCodeBlocks pre m1 m2 m3 bs
      h1 h2 h3 hpre hc1 hb hbs hskip2 hskip3
    have hzero : countLeadingUsers pre.reverse = 0 := by
      apply countLeadingUsers_eq_zero
      intro m hm
      rw [List.head?_reverse] at hm
      exact hpre m hm
    have hcount : autoScanCount (pre ++ [m1, m2, m3]) = 3 := by
      unfold autoScanCount
      rw [List.reverse_append]
      show countLeadingUsers ([m3, m2, m1] ++ pre.reverse) = 3
      simp [countLeadingUsers, h1, h2, h3, hzero]
    refine ⟨hcount, ?_⟩
    have hlen : (pre ++ [m1, m2, m3]).length = pre.length + 3 := by
      simp
    have hwindow : (pre ++ [m1, m2, m3]).drop ((pre ++ [m1, m2, m3]).length - 3) =
        [m1, m2, m3] := by
      rw [hlen]
      simp [List.drop_left']
    simp only [generateCodeExecutionReply, Option.getD, hcount, hwindow]
    simp [scanWindowForCode, hc1, hb, hbs]

/-- Concrete extractor for the C8 witness: the marker content yields one
python block, everything else a single unknown-language block (the behaviour
of `extractCode` on fence-free text). -/
def c8Extract : String → List (String × String) := fun s =>
  if s = "codeblock" then [("python", "print(1)")] else [("unknown", s)]

/-- Concrete executor for the C8 witness. -/
def c8Exec : List (String × String) → Int × String := fun _ => (0, "ran")

/-- Oldest of the three trailing user messages; carries the code block. -/
def c8M1 : Message := { content := some "codeblock", role := some "user" }

/-- Middle trailing user message, no code block. -/
def c8M2 : Message := { content := some "hello", role := some "user" }

/-- Newest trailing user message, no code block. -/
def c8M3 : Message := { content := some "again", role := some "user" }

/-- Non-user message preceding the three trailing user messages. -/
def c8Pre : List Message := [{ content := some "sys", role := some "assistant" }]

/-- Full history of the C8 witness scenario. -/
def c8Msgs : List Message := c8Pre ++ [c8M1, c8M2, c8M3]

/-- Witness for C8: on the concrete four-message history the auto window is 3
and the block in the oldest user message is executed. -/
theorem C8_generateCodeExecutionReply_auto_window_witness :
    autoScanCount c8Msgs = 3 ∧
    generateCodeExecutionReply c8Extract "unknown" c8Exec
        (CodeExecSetting.enabled { lastNMessages := some LastN.auto }) c8Msgs =
      (CodeExecSetting.enabled { lastNMessages := some LastN.auto }, true,
       some "exitcode: 0 (execution succeeded)\nCode output: ran") := by
  have h := C8_generateCodeExecutionReply_auto_window.2 c8Extract "unknown" c8Exec
    c8Pre c8M1 c8M2 c8M3 [("python", "print(1)")] rfl rfl rfl
    (by
      intro m hm
      simp [c8Pre] at hm
      rw [← hm]
      decide)
    rfl rfl rfl (Or.inr rfl) (Or.inr rfl)
  exact ⟨h.1, h.2.trans rfl⟩

/-- C9 counterexample: the claim says literal tabs outside quoted spans are
dropped; `formatJsonStr` keeps them (only newlines are dropped outside
quotes, lines 626-628), so a bare tab maps to itself rather than to the
empty string. -/
theorem C9_formatJsonStr_keeps_tab_outside_quotes :
    formatJsonStr "\t" = "\t" ∧ ("\t" : String) ≠ "" := by
  exact ⟨rfl, by decide⟩

/-- Characters other than newline and tab pass through the formatting loop
unchanged, from any state. -/
theorem fmtRun_id (cs : List Char) (st : FmtState)
    (h : ∀ c ∈ cs, c ≠ '\n' ∧ c ≠ '\t') : fmtRun st cs = cs := by
  induction cs generalizing st with
  | nil => rfl
  | cons c rest ih =>
    have hc := h c (by simp)
    have hrest : ∀ x ∈ rest, x ≠ '\n' ∧ x ≠ '\t' := fun x hx => h x (by simp [hx])
    simp [fmtRun, fmtStep, hc.1, hc.2, ih _ hrest]

/-- C9 (amended): `formatJsonStr` escapes literal newlines and tabs inside
quoted spans to `\n` and `\t`, drops literal newlines outside quoted spans,
keeps literal tabs outside quoted spans unchanged, and returns any input
containing no raw newline or tab characters (in particular valid JSON without
raw control characters) unchanged. The per-character behaviour is stated on
the loop step at an arbitrary quote state (a newline or tab never toggles the
quote state, so the emitted text depends only on `insideQuotes`). -/
theorem C9_formatJsonStr_amended :
    (∀ s : String, (∀ c ∈ s.data, c ≠ '\n' ∧ c ≠ '\t') → formatJsonStr s = s) ∧
    (∀ st : FmtState,
      (fmtStep st '\n').2 = (if st.insideQuotes then ['\\', 'n'] else []) ∧
      (fmtStep st '\t').2 = (if st.insideQuotes then ['\\', 't'] else ['\t'])) := by
  constructor
  · intro s h
    cases s with
    | mk data =>
      show String.mk (fmtRun ⟨false, ' '⟩ data) = String.mk data
      rw [fmtRun_id data ⟨false, ' '⟩ h]
  · intro st
    constructor
    · cases hst : st.insideQuotes <;>
        simp [fmtStep, hst, show ('\n' : Char) ≠ '"' by decide]
    · cases hst : st.insideQuotes <;>
        simp [fmtStep, hst, show ('\t' : Char) ≠ '"' by decide,
          show ('\t' : Char) ≠ '\n' by decide]

/-- Witness for C9 (amended): a control-character-free string is returned
unchanged, and a newline inside a quoted span is escaped. -/
theorem C9_formatJsonStr_amended_witness :
    formatJsonStr "ab" = "ab" ∧ (fmtStep ⟨true, ' '⟩ '\n').2 = ['\\', 'n'] := by
  refine ⟨C9_formatJsonStr_amended.1 "ab" (by decide), ?_⟩
  have h := (C9_formatJsonStr_amended.2 ⟨true, ' '⟩).1
  simpa using h

/-- C10: `executeFunction` recovers every failure locally — its result type
is a plain pair, so no exception propagates. An unknown function name,
unparsable argument JSON, or a fault raised during the spread-call each yield
a failed result whose `role:function` message content describes the error;
success is reported only when the call completes without fault; and the
result role is `function` in every branch. -/
theorem C10_executeFunction_error_recovery (A : AgentState) (funcCall : FunctionCall) :
    (lookupFn A._functionMap (funcCall.name.getD "") = none →
       executeFunction A funcCall =
         (false, { name := some (funcCall.name.getD ""), role := some "function",
                   content := some ("Error: Function " ++ funcCall.name.getD "" ++ " not found.") })) ∧
    (∀ func e, lookupFn A._functionMap (funcCall.name.getD "") = some func →
       jsonParse (formatJsonStr (executeFunctionArgsStr funcCall)) = Except.error e →
       executeFunction A funcCall =
         (false, { name := some (funcCall.name.getD ""), role := some "function",
                   content := some ("Error: " ++ e ++ "\n Your argument should follow JSON format.") })) ∧
    (∀ func args e, lookupFn A._functionMap (funcCall.name.getD "") = some func →
       jsonParse (formatJsonStr (executeFunctionArgsStr funcCall)) = Except.ok args →
       jsSpreadCall func args = Except.error e →
       executeFunction A funcCall =
         (false, { name := some (funcCall.name.getD ""), role := some "function",
                   content := some ("Error: " ++ e) })) ∧
    (∀ func args v, lookupFn A._functionMap (funcCall.name.getD "") = some func →
       jsonParse (formatJsonStr (executeFunctionArgsStr funcCall)) = Except.ok args →
       jsSpreadCall func args = Except.ok v →
       executeFunction A funcCall =
         (true, { name := some (funcCall.name.getD ""), role := some "function",
                  content := some (jsToString v) })) ∧
    (executeFunction A funcCall).2.role = some "function" := by
  refine ⟨?_, ?_, ?_, ?_, ?_⟩
  · intro hl
    simp [executeFunction, hl]
  · intro func e hl hp
    simp [executeFunction, hl, hp]
  · intro func args e hl hp hs
    simp [executeFunction, hl, hp, hs]
  · intro func args v hl hp hs
    simp [executeFunction, hl, hp, hs]
  · cases hl : lookupFn A._functionMap (funcCall.name.getD "") with
    | none => simp [executeFunction, hl]
    | some func =>
      cases hp : jsonParse (formatJsonStr (executeFunctionArgsStr funcCall)) with
      | error e => simp [executeFunction, hl, hp]
      | ok args =>
        cases hs : jsSpreadCall func args with
        | error e => simp [executeFunction, hl, hp, hs]
        | ok v => simp [executeFunction, hl, hp, hs]

/-- A registered function that always raises, for the C10 witness. -/
def c10Boom : JsFunc := fun _ => Except.error "Error raised by the function"

/-- Agent for the C10 witness: the adder and the raising function. -/
def c10Agent : AgentState := { _functionMap := [("f", addFn), ("boom", c10Boom)] }

/-- Witness for C10: an unknown name, the truncated argument string of the
claim, a raising function, and a fault-free positional call, all evaluated
concretely. -/
theorem C10_executeFunction_error_recovery_witness :
    executeFunction c10Agent { name := some "nosuch" } =
      (false, { name := some "nosuch", role := some "function",
                content := some "Error: Function nosuch not found." }) ∧
    executeFunction c10Agent { name := some "f", args := some "\x7b\"a\":1," } =
      (false, { name := some "f", role := some "function",
                content := some ("Error: SyntaxError: Unexpected end of JSON input\n Your argument should follow JSON format.") }) ∧
    executeFunction c10Agent { name := some "boom", args := some "[1]" } =
      (false, { name := some "boom", role := some "function",
                content := some "Error: Error raised by the function" }) ∧
    executeFunction c10Agent { name := some "f", args := some "[2,3]" } =
      (true, { name := some "f", role := some "function", content := some "5" }) := by
  refine ⟨?_, ?_, ?_, ?_⟩
  · exact (C10_executeFunction_error_recovery c10Agent { name := some "nosuch" }).1 rfl
  · exact (C10_executeFunction_error_recovery c10Agent
      { name := some "f", args := some "\x7b\"a\":1," }).2.1 addFn
      "SyntaxError: Unexpected end of JSON input" rfl rfl
  · exact (C10_executeFunction_error_recovery c10Agent
      { name := some "boom", args := some "[1]" }).2.2.1 c10Boom
      (Json.arr [Json.num 1]) "Error raised by the function" rfl rfl rfl
  · exact (C10_executeFunction_error_recovery c10Agent
      { name := some "f", args := some "[2,3]" }).2.2.2.1 addFn
      (Json.arr [Json.num 2, Json.num 3]) (Json.num 5) rfl rfl rfl
